import Mathlib

/-!
Shallow embedding of the sit3 trigger-relay service (src/run.py and
src/app/main.py) and proofs of the specification claims.

The two application files are near-duplicates.  The shared helpers
(`HOP_BY_HOP_HEADERS`, `serialize_headers`, `load_optional_headers`) are
embedded once; the Flask variant (src/run.py, the richer one: upstream body
capture, truncation, explicit status-≥400 classification) is embedded in
namespace `Run`, the FastAPI variant (src/app/main.py) in namespace `Main`.

Modelling conventions:
- Python dicts of strings become association lists `List (String × String)`.
- Response bytes become `List Nat`.
- `os.getenv` results are `Option String` fields of an `Env` record.
- `json.loads` (Python stdlib, external to the repository) is an abstract
  parameter `jsonLoads : String → Option Json`, `none` modelling a
  `JSONDecodeError`; the `Json` inductive mirrors the values it can return.
- httpx's `response.text` property and `bytes.decode` (both external
  libraries) are modelled as `Option String` data of the upstream response,
  `none` modelling that the call raises.
- An exception raised by the code is modelled by the branch of the embedded
  function that builds the corresponding error response; FastAPI's rendering
  of a raised `HTTPException` is a `Body.jsonDetail` response, the same shape
  Flask's `jsonify(detail=...)` produces.
-/

set_option maxRecDepth 10000

/-- Python `str.lower()` on header names (code-point-wise lowercase). -/
def pyLower (s : String) : String := String.mk (s.data.map Char.toLower)

/-- Python slicing `value[:limit]` on a `str` (code-point based). -/
def pyTake (s : String) (n : Nat) : String := String.mk (s.data.take n)

/-- Python `len()` of a `str` (number of code points). -/
def pyLen (s : String) : Nat := s.data.length

/-- Python `str.strip()`: drop leading and trailing whitespace. -/
def pyStrip (s : String) : String :=
  String.mk
    (((s.data.dropWhile Char.isWhitespace).reverse.dropWhile
        Char.isWhitespace).reverse)

/-- Values `json.loads` can produce.  Numbers are modelled as integers
(the claims never depend on float formatting). -/
inductive Json where
  | null : Json
  | bool (b : Bool) : Json
  | num (n : Int) : Json
  | str (s : String) : Json
  | arr (elems : List Json) : Json
  | obj (fields : List (String × Json)) : Json
deriving Repr

/-- The single-quote character Python `repr` wraps strings in. -/
def pyQuote : String := String.singleton (Char.ofNat 39)

mutual

/-- Python `repr` of a JSON-shaped value, used by `str` on containers. -/
def pythonRepr : Json → String
  | Json.null => "None"
  | Json.bool true => "True"
  | Json.bool false => "False"
  | Json.num n => toString n
  | Json.str s => pyQuote ++ s ++ pyQuote
  | Json.arr elems => "[" ++ String.intercalate ", " (pythonReprList elems) ++ "]"
  | Json.obj fields => "\x7b" ++ String.intercalate ", " (pythonReprObj fields) ++ "\x7d"

def pythonReprList : List Json → List String
  | [] => []
  | j :: rest => pythonRepr j :: pythonReprList rest

def pythonReprObj : List (String × Json) → List String
  | [] => []
  | (k, v) :: rest => (pyQuote ++ k ++ pyQuote ++ ": " ++ pythonRepr v) :: pythonReprObj rest

end

/-- Python `str` of a JSON-shaped value: a string maps to itself, anything
else to its `repr`. -/
def pythonStr : Json → String
  | Json.str s => s
  | j => pythonRepr j

/-- src/run.py lines 12-22 and src/app/main.py lines 13-23: the fixed
hop-by-hop header-name set (already lowercase in the source). -/
def HOP_BY_HOP_HEADERS : List String :=
  ["connection", "keep-alive", "proxy-authenticate", "proxy-authorization",
   "te", "trailers", "transfer-encoding", "upgrade", "content-length"]

/-- The environment variables the handlers read. -/
structure Env where
  sit3_url : Option String
  sit3_headers_json : Option String

/-- src/run.py line 62: `{str(key): str(value) for key, value in headers.items()}`
over a header mapping whose keys and values are already strings. -/
def serialize_headers (headers : List (String × String)) : List (String × String) :=
  headers.map (fun p => (p.1, p.2))

/-- src/run.py lines 154-167 and src/app/main.py lines 120-133:
`load_optional_headers`.  `raw` is `os.getenv("SIT3_HEADERS_JSON")`;
`jsonLoads` abstracts `json.loads` (`none` = `JSONDecodeError`).
`Except.error msg` models `raise ValueError(msg)`. -/
def load_optional_headers (jsonLoads : String → Option Json)
    (raw : Option String) : Except String (List (String × String)) :=
  match raw with
  | none => Except.ok []
  | some s =>
    if s = "" then Except.ok []
    else
      match jsonLoads s with
      | none => Except.error "SIT3_HEADERS_JSON must be valid JSON"
      | some parsed =>
        match parsed with
        | Json.obj fields =>
          -- keys of a parsed JSON object are strings, so str(key) = key
          Except.ok (fields.map (fun p => (p.1, pythonStr p.2)))
        | _ => Except.error "SIT3_HEADERS_JSON must be a JSON object"

/-- The dict comprehension at src/run.py lines 222-226 (and src/app/main.py
lines 190-194): drop every header whose lowercased name is hop-by-hop. -/
def filterHopByHop (headers : List (String × String)) : List (String × String) :=
  headers.filter (fun p => ¬ HOP_BY_HOP_HEADERS.contains (pyLower p.1))

/-- src/run.py lines 128-131: `truncate_text` (the call sites use the
default `limit=500`). -/
def truncate_text (value : String) (limit : Nat) : String :=
  if pyLen value ≤ limit then value else pyTake value limit ++ "..."

/-- An upstream transport-level response.  `textResult` models httpx's
`response.text` (`none` = the property raises); `decodeResult` models
`response.content.decode("utf-8", errors="replace")` (`none` = raises). -/
structure UpstreamResponse where
  status_code : Nat
  headers : List (String × String)
  content : List Nat
  textResult : Option String
  decodeResult : Option String

/-- src/run.py lines 134-141: `get_upstream_body` with its two fallbacks. -/
def get_upstream_body (r : UpstreamResponse) : String :=
  match r.textResult with
  | some t => t
  | none =>
    match r.decodeResult with
    | some d => d
    | none => ""

/-- src/run.py lines 144-151: `build_upstream_error_message`. -/
def build_upstream_error_message (r : UpstreamResponse) : String :=
  let message := "Upstream responded with status " ++ toString r.status_code
  let body_text := pyStrip (get_upstream_body r)
  if body_text = "" then message
  else message ++ ": " ++ truncate_text body_text 500

/-- The outcome of the single `client.get` call: either an `httpx.HTTPError`
(with the exception's class name and message) or a transport-level response. -/
inductive TransportResult where
  | failure (errType : String) (errMsg : String) : TransportResult
  | response (r : UpstreamResponse) : TransportResult

/-- The inbound GET request as the handlers see it (query parameters
already flattened as by `to_dict(flat=True)`). -/
structure InboundRequest where
  method : String
  path : String
  query_params : List (String × String)
  headers : List (String × String)

/-- src/run.py lines 66-73: `build_request_context` (the timestamp comes
from the clock, an external input). -/
structure RequestContext where
  timestamp : String
  method : String
  path : String
  query_params : List (String × String)
  request_headers : List (String × String)

def build_request_context (req : InboundRequest) (ts : String) : RequestContext :=
  { timestamp := ts
    method := req.method
    path := req.path
    query_params := req.query_params
    request_headers := serialize_headers req.headers }

inductive LogLevel where
  | info : LogLevel
  | error : LogLevel
deriving DecidableEq, Repr

/-- One structured log record: the JSON payload passed to `log_json_event`,
plus the severity it is emitted at.  Optional fields are `none` when the
source leaves them out of the payload. -/
structure LogRecord where
  level : LogLevel
  timestamp : String
  method : String
  path : String
  query_params : List (String × String)
  request_headers : List (String × String)
  event : String
  target_url : Option String
  status_code : Option Nat
  error_type : Option String
  error_message : Option String
  upstream_status : Option Nat
  upstream_headers : Option (List (String × String))
  upstream_body : Option String

/-- The body of a response returned to the caller. -/
inductive Body where
  | jsonDetail (detail : String) : Body
  | jsonStatus (status : String) : Body
  | bytes (content : List Nat) : Body
deriving DecidableEq, Repr

structure HttpResponse where
  status : Nat
  body : Body
  headers : List (String × String)

/-- The outbound GET actually issued: url, `params=...`, `headers=...`
(`extra_headers or None` maps an empty dict to `none`). -/
structure OutboundCall where
  url : String
  params : List (String × String)
  headers : Option (List (String × String))
deriving DecidableEq, Repr

/-- Which source branch of the handler ran; the spec's error taxonomy
names these branches `ConfigError` (`missingUrl`, `invalidHeaders`),
`UpstreamUnreachable` (`transportFailure`), `UpstreamError`
(`upstreamErrorStatus`) and Success (`upstreamOk`). -/
inductive Branch where
  | missingUrl : Branch
  | invalidHeaders : Branch
  | transportFailure : Branch
  | upstreamErrorStatus : Branch
  | upstreamOk : Branch
deriving DecidableEq, Repr

/-- Everything one invocation of a trigger handler does that the claims
talk about: the response, the log records emitted (in order), the outbound
calls issued, and the branch taken. -/
structure TriggerResult where
  response : HttpResponse
  logs : List LogRecord
  outboundCalls : List OutboundCall
  branch : Branch

namespace Run

/-- src/run.py lines 84-106: `log_trigger_error` (the `error` argument is
represented by its class name `errorType`). -/
def log_trigger_error (ctx : RequestContext) (target_url : Option String)
    (status_code : Nat) (errorType : String) (error_message : String)
    (upstream_headers : Option (List (String × String)))
    (upstream_body : Option String) : LogRecord :=
  { level := LogLevel.error
    timestamp := ctx.timestamp
    method := ctx.method
    path := ctx.path
    query_params := ctx.query_params
    request_headers := ctx.request_headers
    event := "trigger_error"
    target_url := target_url
    status_code := some status_code
    error_type := some errorType
    error_message := some error_message
    upstream_status := none
    upstream_headers := upstream_headers
    upstream_body := upstream_body }

/-- src/run.py lines 109-125: `log_trigger_success`. -/
def log_trigger_success (ctx : RequestContext) (target_url : String)
    (r : UpstreamResponse) (upstream_body : Option String) : LogRecord :=
  { level := LogLevel.info
    timestamp := ctx.timestamp
    method := ctx.method
    path := ctx.path
    query_params := ctx.query_params
    request_headers := ctx.request_headers
    event := "trigger_request"
    target_url := some target_url
    status_code := none
    error_type := none
    error_message := none
    upstream_status := some r.status_code
    upstream_headers := some (serialize_headers r.headers)
    upstream_body := upstream_body }

/-- The `if not target_url` branch at src/run.py lines 179-189:
`RuntimeError("SIT3_URL is not set")`, logged, then
`jsonify(detail=str(error)), 500`. -/
def missing_url_result (ctx : RequestContext) (target_url : Option String) :
    TriggerResult :=
  { response := { status := 500, body := Body.jsonDetail "SIT3_URL is not set",
                  headers := [] }
    logs := [log_trigger_error ctx target_url 500 "RuntimeError"
               "SIT3_URL is not set" none none]
    outboundCalls := []
    branch := Branch.missingUrl }

/-- src/run.py lines 175-256: the `/trigger` handler.  `ts` is the clock
reading, `transport` what the network does to the single `client.get`. -/
def trigger (env : Env) (jsonLoads : String → Option Json)
    (req : InboundRequest) (ts : String) (transport : TransportResult) :
    TriggerResult :=
  let ctx := build_request_context req ts
  match env.sit3_url with
  | none => missing_url_result ctx none
  | some url =>
    if url = "" then missing_url_result ctx (some "")
    else
      match load_optional_headers jsonLoads env.sit3_headers_json with
      | Except.error msg =>
        { response := { status := 500, body := Body.jsonDetail msg, headers := [] }
          logs := [log_trigger_error ctx (some url) 500 "ValueError" msg none none]
          outboundCalls := []
          branch := Branch.invalidHeaders }
      | Except.ok extra_headers =>
        let call : OutboundCall :=
          { url := url
            params := req.query_params
            headers := if extra_headers.isEmpty then none else some extra_headers }
        match transport with
        | TransportResult.failure errType errMsg =>
          { response := { status := 502,
                          body := Body.jsonDetail "Upstream request failed",
                          headers := [] }
            logs := [log_trigger_error ctx (some url) 502 errType errMsg none none]
            outboundCalls := [call]
            branch := Branch.transportFailure }
        | TransportResult.response r =>
          let filtered_headers := filterHopByHop r.headers
          let upstream_body := get_upstream_body r
          let upstream_headers := serialize_headers r.headers
          if 400 ≤ r.status_code then
            { response := { status := r.status_code, body := Body.bytes r.content,
                            headers := filtered_headers }
              logs := [log_trigger_error ctx (some url) r.status_code
                         "RuntimeError" (build_upstream_error_message r)
                         (some upstream_headers) (some upstream_body)]
              outboundCalls := [call]
              branch := Branch.upstreamErrorStatus }
          else
            { response := { status := r.status_code, body := Body.bytes r.content,
                            headers := filtered_headers }
              logs := [log_trigger_success ctx url r (some upstream_body)]
              outboundCalls := [call]
              branch := Branch.upstreamOk }

/-- src/run.py lines 170-172: the `/health` handler.  It reads no
configuration and emits no log record. -/
def health : HttpResponse × List LogRecord :=
  ({ status := 200, body := Body.jsonStatus "ok", headers := [] }, [])

end Run

namespace Main

/-- src/app/main.py lines 85-101: `log_trigger_error` (no upstream
headers/body fields in this variant). -/
def log_trigger_error (ctx : RequestContext) (target_url : Option String)
    (status_code : Nat) (errorType : String) (error_message : String) :
    LogRecord :=
  { level := LogLevel.error
    timestamp := ctx.timestamp
    method := ctx.method
    path := ctx.path
    query_params := ctx.query_params
    request_headers := ctx.request_headers
    event := "trigger_error"
    target_url := target_url
    status_code := some status_code
    error_type := some errorType
    error_message := some error_message
    upstream_status := none
    upstream_headers := none
    upstream_body := none }

/-- src/app/main.py lines 104-117: `log_trigger_success` (no upstream body
in this variant). -/
def log_trigger_success (ctx : RequestContext) (target_url : String)
    (r : UpstreamResponse) : LogRecord :=
  { level := LogLevel.info
    timestamp := ctx.timestamp
    method := ctx.method
    path := ctx.path
    query_params := ctx.query_params
    request_headers := ctx.request_headers
    event := "trigger_request"
    target_url := some target_url
    status_code := none
    error_type := none
    error_message := none
    upstream_status := some r.status_code
    upstream_headers := some (serialize_headers r.headers)
    upstream_body := none }

/-- The `if not target_url` branch at src/app/main.py lines 145-155:
`HTTPException(status_code=500, detail="SIT3_URL is not set")`, logged with
the exception's class name, then raised (FastAPI renders it as a 500 JSON
`detail` response). -/
def missing_url_result (ctx : RequestContext) (target_url : Option String) :
    TriggerResult :=
  { response := { status := 500, body := Body.jsonDetail "SIT3_URL is not set",
                  headers := [] }
    logs := [log_trigger_error ctx target_url 500 "HTTPException"
               "SIT3_URL is not set"]
    outboundCalls := []
    branch := Branch.missingUrl }

/-- src/app/main.py lines 141-202: the `/trigger` handler.  This variant
logs every transport-level response as a success event and does not
capture the upstream body. -/
def trigger (env : Env) (jsonLoads : String → Option Json)
    (req : InboundRequest) (ts : String) (transport : TransportResult) :
    TriggerResult :=
  let ctx := build_request_context req ts
  match env.sit3_url with
  | none => missing_url_result ctx none
  | some url =>
    if url = "" then missing_url_result ctx (some "")
    else
      match load_optional_headers jsonLoads env.sit3_headers_json with
      | Except.error msg =>
        { response := { status := 500, body := Body.jsonDetail msg, headers := [] }
          logs := [log_trigger_error ctx (some url) 500 "ValueError" msg]
          outboundCalls := []
          branch := Branch.invalidHeaders }
      | Except.ok extra_headers =>
        let call : OutboundCall :=
          { url := url
            params := req.query_params
            headers := if extra_headers.isEmpty then none else some extra_headers }
        match transport with
        | TransportResult.failure errType errMsg =>
          { response := { status := 502,
                          body := Body.jsonDetail "Upstream request failed",
                          headers := [] }
            logs := [log_trigger_error ctx (some url) 502 errType errMsg]
            outboundCalls := [call]
            branch := Branch.transportFailure }
        | TransportResult.response r =>
          { response := { status := r.status_code, body := Body.bytes r.content,
                          headers := filterHopByHop r.headers }
            logs := [log_trigger_success ctx url r]
            outboundCalls := [call]
            branch := Branch.upstreamOk }

/-- src/app/main.py lines 136-138: the `/health` handler. -/
def health : HttpResponse × List LogRecord :=
  ({ status := 200, body := Body.jsonStatus "ok", headers := [] }, [])

end Main

/-! ### Concrete fixtures used by witnesses and counterexamples -/

def env1 : Env :=
  { sit3_url := some "http://upstream.example", sit3_headers_json := none }

def envNoUrl : Env := { sit3_url := none, sit3_headers_json := none }

def req1 : InboundRequest :=
  { method := "GET", path := "/trigger", query_params := [("a", "1")],
    headers := [("X-Caller", "alpha")] }

def req2 : InboundRequest :=
  { method := "GET", path := "/trigger", query_params := [("a", "1")],
    headers := [("X-Caller", "beta"), ("Authorization", "token")] }

def jsonLoads0 : String → Option Json := fun _ => none

/-- A 600-character body (600 copies of `a`). -/
def body600 : String := String.mk (List.replicate 600 'a')

def r404 : UpstreamResponse :=
  { status_code := 404
    headers := [("Content-Type", "text/plain"), ("Connection", "keep-alive")]
    content := List.replicate 600 97
    textResult := some body600
    decodeResult := some body600 }

def r200 : UpstreamResponse :=
  { status_code := 200
    headers := [("Content-Type", "text/plain"), ("Transfer-Encoding", "chunked"),
                ("Content-Length", "42")]
    content := [104, 105]
    textResult := some "hi"
    decodeResult := some "hi" }

/-! ### Helper reduction lemmas for the two trigger pipelines -/

section Helpers

variable (env : Env) (jsonLoads : String → Option Json) (req : InboundRequest)
  (ts : String)

theorem run_trigger_missing_eq (tr : TransportResult)
    (h : env.sit3_url = none ∨ env.sit3_url = some "") :
    Run.trigger env jsonLoads req ts tr =
      Run.missing_url_result (build_request_context req ts) env.sit3_url := by
  rcases h with h | h <;> simp [Run.trigger, h]

theorem main_trigger_missing_eq (tr : TransportResult)
    (h : env.sit3_url = none ∨ env.sit3_url = some "") :
    Main.trigger env jsonLoads req ts tr =
      Main.missing_url_result (build_request_context req ts) env.sit3_url := by
  rcases h with h | h <;> simp [Main.trigger, h]

theorem run_trigger_failure_eq (url : String) (extra : List (String × String))
    (errType errMsg : String)
    (hurl : env.sit3_url = some url) (hne : url ≠ "")
    (hload : load_optional_headers jsonLoads env.sit3_headers_json =
      Except.ok extra) :
    Run.trigger env jsonLoads req ts (TransportResult.failure errType errMsg) =
      { response := { status := 502,
                      body := Body.jsonDetail "Upstream request failed",
                      headers := [] }
        logs := [Run.log_trigger_error (build_request_context req ts) (some url)
                   502 errType errMsg none none]
        outboundCalls := [{ url := url, params := req.query_params,
                            headers := if extra.isEmpty then none
                                       else some extra }]
        branch := Branch.transportFailure } := by
  simp [Run.trigger, hurl, hne, hload]

theorem main_trigger_failure_eq (url : String) (extra : List (String × String))
    (errType errMsg : String)
    (hurl : env.sit3_url = some url) (hne : url ≠ "")
    (hload : load_optional_headers jsonLoads env.sit3_headers_json =
      Except.ok extra) :
    Main.trigger env jsonLoads req ts (TransportResult.failure errType errMsg) =
      { response := { status := 502,
                      body := Body.jsonDetail "Upstream request failed",
                      headers := [] }
        logs := [Main.log_trigger_error (build_request_context req ts) (some url)
                   502 errType errMsg]
        outboundCalls := [{ url := url, params := req.query_params,
                            headers := if extra.isEmpty then none
                                       else some extra }]
        branch := Branch.transportFailure } := by
  simp [Main.trigger, hurl, hne, hload]

theorem run_trigger_upstream_ge_eq (url : String) (extra : List (String × String))
    (r : UpstreamResponse)
    (hurl : env.sit3_url = some url) (hne : url ≠ "")
    (hload : load_optional_headers jsonLoads env.sit3_headers_json =
      Except.ok extra)
    (h400 : 400 ≤ r.status_code) :
    Run.trigger env jsonLoads req ts (TransportResult.response r) =
      { response := { status := r.status_code, body := Body.bytes r.content,
                      headers := filterHopByHop r.headers }
        logs := [Run.log_trigger_error (build_request_context req ts) (some url)
                   r.status_code "RuntimeError" (build_upstream_error_message r)
                   (some (serialize_headers r.headers))
                   (some (get_upstream_body r))]
        outboundCalls := [{ url := url, params := req.query_params,
                            headers := if extra.isEmpty then none
                                       else some extra }]
        branch := Branch.upstreamErrorStatus } := by
  simp [Run.trigger, hurl, hne, hload, h400]

theorem run_trigger_upstream_lt_eq (url : String) (extra : List (String × String))
    (r : UpstreamResponse)
    (hurl : env.sit3_url = some url) (hne : url ≠ "")
    (hload : load_optional_headers jsonLoads env.sit3_headers_json =
      Except.ok extra)
    (h400 : r.status_code < 400) :
    Run.trigger env jsonLoads req ts (TransportResult.response r) =
      { response := { status := r.status_code, body := Body.bytes r.content,
                      headers := filterHopByHop r.headers }
        logs := [Run.log_trigger_success (build_request_context req ts) url r
                   (some (get_upstream_body r))]
        outboundCalls := [{ url := url, params := req.query_params,
                            headers := if extra.isEmpty then none
                                       else some extra }]
        branch := Branch.upstreamOk } := by
  have h : ¬ 400 ≤ r.status_code := by omega
  simp [Run.trigger, hurl, hne, hload, h]

theorem main_trigger_response_eq (url : String) (extra : List (String × String))
    (r : UpstreamResponse)
    (hurl : env.sit3_url = some url) (hne : url ≠ "")
    (hload : load_optional_headers jsonLoads env.sit3_headers_json =
      Except.ok extra) :
    Main.trigger env jsonLoads req ts (TransportResult.response r) =
      { response := { status := r.status_code, body := Body.bytes r.content,
                      headers := filterHopByHop r.headers }
        logs := [Main.log_trigger_success (build_request_context req ts) url r]
        outboundCalls := [{ url := url, params := req.query_params,
                            headers := if extra.isEmpty then none
                                       else some extra }]
        branch := Branch.upstreamOk } := by
  simp [Main.trigger, hurl, hne, hload]

end Helpers

/-! ### Shared facts about the header filter -/

theorem filterHopByHop_idem (H : List (String × String)) :
    filterHopByHop (filterHopByHop H) = filterHopByHop H := by
  simp [filterHopByHop, List.filter_filter]

theorem filterHopByHop_no_hop (H : List (String × String)) :
    ∀ p ∈ filterHopByHop H, pyLower p.1 ∉ HOP_BY_HOP_HEADERS := by
  intro p hp
  have h := (List.mem_filter.mp hp).2
  simpa using h

theorem filterHopByHop_keeps (H : List (String × String)) :
    ∀ p ∈ H, pyLower p.1 ∉ HOP_BY_HOP_HEADERS → p ∈ filterHopByHop H := by
  intro p hp hnot
  exact List.mem_filter.mpr ⟨hp, by simpa using hnot⟩

/-! ### Claim theorems -/

/-- C7: the Header Filter is idempotent and exhaustive: filtering twice
equals filtering once, no key of the output case-insensitively matches a
hop-by-hop name, and every non-hop-by-hop entry of the input appears
unchanged in the output. -/
theorem c7_header_filter_idempotent_exhaustive (H : List (String × String)) :
    filterHopByHop (filterHopByHop H) = filterHopByHop H ∧
    (∀ p ∈ filterHopByHop H, pyLower p.1 ∉ HOP_BY_HOP_HEADERS) ∧
    (∀ p ∈ H, pyLower p.1 ∉ HOP_BY_HOP_HEADERS → p ∈ filterHopByHop H) :=
  ⟨filterHopByHop_idem H, filterHopByHop_no_hop H, filterHopByHop_keeps H⟩

/-- C7 witness: the filter applied to a concrete header set containing
hop-by-hop and ordinary entries. -/
theorem c7_witness :
    filterHopByHop (filterHopByHop r200.headers) = filterHopByHop r200.headers ∧
    ("Content-Type", "text/plain") ∈ filterHopByHop r200.headers := by
  refine ⟨(c7_header_filter_idempotent_exhaustive r200.headers).1, ?_⟩
  exact (c7_header_filter_idempotent_exhaustive r200.headers).2.2
    ("Content-Type", "text/plain") (by decide) (by decide)

/-- C6: the Upstream Header Loader returns an empty set for an absent or
empty value, a `ValueError` (the spec's `ConfigError`) when `json.loads`
fails or when the parsed value is not an object, and otherwise the parsed
object with every key and value coerced to string. -/
theorem c6_load_optional_headers (jsonLoads : String → Option Json)
    (raw : Option String) :
    (raw = none ∨ raw = some "" →
      load_optional_headers jsonLoads raw = Except.ok []) ∧
    (∀ s, raw = some s → s ≠ "" → jsonLoads s = none →
      load_optional_headers jsonLoads raw =
        Except.error "SIT3_HEADERS_JSON must be valid JSON") ∧
    (∀ s j, raw = some s → s ≠ "" → jsonLoads s = some j →
      (∀ fields, j ≠ Json.obj fields) →
      load_optional_headers jsonLoads raw =
        Except.error "SIT3_HEADERS_JSON must be a JSON object") ∧
    (∀ s fields, raw = some s → s ≠ "" →
      jsonLoads s = some (Json.obj fields) →
      load_optional_headers jsonLoads raw =
        Except.ok (fields.map (fun p => (p.1, pythonStr p.2)))) := by
  refine ⟨?_, ?_, ?_, ?_⟩
  · rintro (h | h) <;> simp [load_optional_headers, h]
  · intro s hs hne hparse
    simp [load_optional_headers, hs, hne, hparse]
  · intro s j hs hne hparse hnotobj
    cases j <;> simp [load_optional_headers, hs, hne, hparse]
    exact absurd rfl (hnotobj _)
  · intro s fields hs hne hparse
    simp [load_optional_headers, hs, hne, hparse]

/-- C6 witness: the four loader cases at concrete inputs. -/
theorem c6_witness :
    load_optional_headers jsonLoads0 none = Except.ok [] ∧
    load_optional_headers jsonLoads0 (some "\x7bbad") =
      Except.error "SIT3_HEADERS_JSON must be valid JSON" ∧
    load_optional_headers (fun _ => some (Json.str "abc")) (some "\x22abc\x22") =
      Except.error "SIT3_HEADERS_JSON must be a JSON object" ∧
    load_optional_headers
      (fun _ => some (Json.obj [("X-Foo", Json.str "bar")]))
      (some "\x7b\x22X-Foo\x22: \x22bar\x22\x7d") =
      Except.ok [("X-Foo", "bar")] := by
  refine ⟨?_, ?_, ?_, ?_⟩
  · exact (c6_load_optional_headers jsonLoads0 none).1 (Or.inl rfl)
  · exact (c6_load_optional_headers jsonLoads0 (some "\x7bbad")).2.1
      "\x7bbad" rfl (by decide) rfl
  · exact (c6_load_optional_headers (fun _ => some (Json.str "abc"))
      (some "\x22abc\x22")).2.2.1 "\x22abc\x22" (Json.str "abc") rfl (by decide)
      rfl (fun fields h => by cases h)
  · exact (c6_load_optional_headers
      (fun _ => some (Json.obj [("X-Foo", Json.str "bar")]))
      (some "\x7b\x22X-Foo\x22: \x22bar\x22\x7d")).2.2.2
      "\x7b\x22X-Foo\x22: \x22bar\x22\x7d" [("X-Foo", Json.str "bar")] rfl
      (by decide) rfl

/-- C10: `get_upstream_body` is total with the documented fallback chain:
the `text` property when it succeeds, else the UTF-8-with-replacement
decoding of the raw bytes when that succeeds, else the empty string. -/
theorem c10_get_upstream_body_total (r : UpstreamResponse) :
    (∀ t, r.textResult = some t → get_upstream_body r = t) ∧
    (∀ d, r.textResult = none → r.decodeResult = some d →
      get_upstream_body r = d) ∧
    (r.textResult = none → r.decodeResult = none → get_upstream_body r = "") := by
  refine ⟨?_, ?_, ?_⟩ <;> intros <;> simp [get_upstream_body, *]

/-- C10 witness: the fallback chain at concrete responses. -/
theorem c10_witness :
    get_upstream_body r200 = "hi" ∧
    get_upstream_body { r200 with textResult := none } = "hi" ∧
    get_upstream_body { r200 with textResult := none, decodeResult := none }
      = "" := by
  refine ⟨?_, ?_, ?_⟩
  · exact (c10_get_upstream_body_total r200).1 "hi" rfl
  · exact (c10_get_upstream_body_total _).2.1 "hi" rfl rfl
  · exact (c10_get_upstream_body_total _).2.2 rfl rfl

/-- C9: both `/health` handlers return status 200 with body
`\x7b"status": "ok"\x7d` and emit no log record, independent of any
configuration (the handlers read none). -/
theorem c9_health_ok :
    Run.health.1.status = 200 ∧ Run.health.1.body = Body.jsonStatus "ok" ∧
    Run.health.2 = [] ∧
    Main.health.1.status = 200 ∧ Main.health.1.body = Body.jsonStatus "ok" ∧
    Main.health.2 = [] :=
  ⟨rfl, rfl, rfl, rfl, rfl, rfl⟩

/-- C1: for every upstream response reaching the richer handler, a status
≥ 400 is classified as the error branch (the spec's `UpstreamError`) with
logged status_code equal to the upstream status and error_message
"Upstream responded with status \x7bcode\x7d", suffixed with
": " and the trimmed body run through `truncate_text` (which keeps the
first 500 characters and appends "..." exactly when the body exceeds 500
characters) when the trimmed body is non-empty; a status < 400 is
classified as success; in both cases the response to the caller carries
the upstream's own status code, never 502. -/
theorem c1_upstream_classification (env : Env)
    (jsonLoads : String → Option Json) (req : InboundRequest) (ts url : String)
    (extra : List (String × String)) (r : UpstreamResponse)
    (hurl : env.sit3_url = some url) (hne : url ≠ "")
    (hload : load_optional_headers jsonLoads env.sit3_headers_json =
      Except.ok extra) :
    (Run.trigger env jsonLoads req ts
        (TransportResult.response r)).response.status = r.status_code ∧
    (400 ≤ r.status_code →
      (Run.trigger env jsonLoads req ts
          (TransportResult.response r)).branch = Branch.upstreamErrorStatus ∧
      ∃ rec, (Run.trigger env jsonLoads req ts
          (TransportResult.response r)).logs = [rec] ∧
        rec.event = "trigger_error" ∧ rec.level = LogLevel.error ∧
        rec.status_code = some r.status_code ∧
        rec.error_message = some (build_upstream_error_message r)) ∧
    (r.status_code < 400 →
      (Run.trigger env jsonLoads req ts
          (TransportResult.response r)).branch = Branch.upstreamOk ∧
      ∃ rec, (Run.trigger env jsonLoads req ts
          (TransportResult.response r)).logs = [rec] ∧
        rec.event = "trigger_request" ∧ rec.level = LogLevel.info) ∧
    (pyStrip (get_upstream_body r) = "" →
      build_upstream_error_message r =
        "Upstream responded with status " ++ toString r.status_code) ∧
    (pyStrip (get_upstream_body r) ≠ "" →
      build_upstream_error_message r =
        "Upstream responded with status " ++ toString r.status_code ++ ": " ++
          truncate_text (pyStrip (get_upstream_body r)) 500) ∧
    (∀ t : String, 500 < pyLen t →
      truncate_text t 500 = pyTake t 500 ++ "...") ∧
    (∀ t : String, pyLen t ≤ 500 → truncate_text t 500 = t) := by
  refine ⟨?_, ?_, ?_, ?_, ?_, ?_, ?_⟩
  · by_cases h : 400 ≤ r.status_code
    · rw [run_trigger_upstream_ge_eq env jsonLoads req ts url extra r hurl hne
        hload h]
    · rw [run_trigger_upstream_lt_eq env jsonLoads req ts url extra r hurl hne
        hload (by omega)]
  · intro h
    rw [run_trigger_upstream_ge_eq env jsonLoads req ts url extra r hurl hne
      hload h]
    exact ⟨rfl, _, rfl, rfl, rfl, rfl, rfl⟩
  · intro h
    rw [run_trigger_upstream_lt_eq env jsonLoads req ts url extra r hurl hne
      hload h]
    exact ⟨rfl, _, rfl, rfl, rfl⟩
  · intro h
    simp [build_upstream_error_message, h]
  · intro h
    simp [build_upstream_error_message, h]
  · intro t ht
    rw [truncate_text, if_neg (by omega)]
  · intro t ht
    rw [truncate_text, if_pos ht]

/-- C1 witness: a concrete 404 whose 600-character body gets truncated in
the error message, and whose status is passed through. -/
theorem c1_witness :
    env1.sit3_url = some "http://upstream.example" ∧
    (Run.trigger env1 jsonLoads0 req1 "t0"
        (TransportResult.response r404)).response.status = 404 ∧
    (Run.trigger env1 jsonLoads0 req1 "t0"
        (TransportResult.response r404)).branch = Branch.upstreamErrorStatus := by
  have h := c1_upstream_classification env1 jsonLoads0 req1 "t0"
    "http://upstream.example" [] r404 rfl (by decide) rfl
  exact ⟨rfl, h.1, (h.2.1 (by decide)).1⟩

/-- C2 counterexample: upstream 404 with a 600-character body.  The log
record's `upstream_body` field holds the full 600-character body, not the
first 500 characters followed by "..." as the claim states (the truncation
happens in the `error_message` field instead). -/
theorem c2_counterexample :
    (Run.trigger env1 jsonLoads0 req1 "t0"
        (TransportResult.response r404)).logs.map (fun rec => rec.upstream_body)
      = [some body600] ∧
    body600 ≠ pyTake body600 500 ++ "..." := by
  exact ⟨rfl, by decide⟩

/-- C2 amended: for an upstream error response whose trimmed body exceeds
500 characters, the log record's `error_message` carries the first 500
characters of the trimmed body followed by "..." (after the status
prefix), its `upstream_body` carries the full untruncated body, and the
response to the caller carries the upstream's status code and the full
original body bytes. -/
theorem c2_amended_truncation_in_error_message (env : Env)
    (jsonLoads : String → Option Json) (req : InboundRequest) (ts url : String)
    (extra : List (String × String)) (r : UpstreamResponse)
    (hurl : env.sit3_url = some url) (hne : url ≠ "")
    (hload : load_optional_headers jsonLoads env.sit3_headers_json =
      Except.ok extra)
    (h400 : 400 ≤ r.status_code)
    (hlong : 500 < pyLen (pyStrip (get_upstream_body r))) :
    ∃ rec, (Run.trigger env jsonLoads req ts
        (TransportResult.response r)).logs = [rec] ∧
      rec.upstream_body = some (get_upstream_body r) ∧
      rec.error_message =
        some ("Upstream responded with status " ++ toString r.status_code ++
          ": " ++ (pyTake (pyStrip (get_upstream_body r)) 500 ++ "...")) ∧
      (Run.trigger env jsonLoads req ts
          (TransportResult.response r)).response.status = r.status_code ∧
      (Run.trigger env jsonLoads req ts
          (TransportResult.response r)).response.body = Body.bytes r.content := by
  rw [run_trigger_upstream_ge_eq env jsonLoads req ts url extra r hurl hne
    hload h400]
  refine ⟨_, rfl, rfl, ?_, rfl, rfl⟩
  have hne2 : pyStrip (get_upstream_body r) ≠ "" := by
    intro h
    rw [h] at hlong
    simp [pyLen] at hlong
  show some (build_upstream_error_message r) = _
  rw [build_upstream_error_message]
  simp only [hne2, if_neg, ite_false]
  rw [truncate_text, if_neg (by omega)]

/-- C2 witness for the amended claim: the concrete 404 with a
600-character body. -/
theorem c2_witness :
    (Run.trigger env1 jsonLoads0 req1 "t0"
        (TransportResult.response r404)).response.status = 404 ∧
    (Run.trigger env1 jsonLoads0 req1 "t0"
        (TransportResult.response r404)).response.body
      = Body.bytes (List.replicate 600 97) ∧
    ∃ rec, (Run.trigger env1 jsonLoads0 req1 "t0"
        (TransportResult.response r404)).logs = [rec] ∧
      rec.upstream_body = some body600 := by
  obtain ⟨rec, hlogs, hub, hmsg, hstat, hbody⟩ :=
    c2_amended_truncation_in_error_message env1 jsonLoads0 req1 "t0"
      "http://upstream.example" [] r404 rfl (by decide) rfl (by decide)
      (by decide)
  exact ⟨hstat, hbody, rec, hlogs, hub⟩

/-- C3: for every upstream response, both handlers return the upstream's
status code unchanged, the upstream's body bytes byte-for-byte (regardless
of the success/failure classification), and exactly the upstream headers
with every hop-by-hop name (compared case-insensitively) removed. -/
theorem c3_response_passthrough (env : Env)
    (jsonLoads : String → Option Json) (req : InboundRequest) (ts url : String)
    (extra : List (String × String)) (r : UpstreamResponse)
    (hurl : env.sit3_url = some url) (hne : url ≠ "")
    (hload : load_optional_headers jsonLoads env.sit3_headers_json =
      Except.ok extra) :
    (Run.trigger env jsonLoads req ts
        (TransportResult.response r)).response.status = r.status_code ∧
    (Run.trigger env jsonLoads req ts
        (TransportResult.response r)).response.body = Body.bytes r.content ∧
    (Run.trigger env jsonLoads req ts
        (TransportResult.response r)).response.headers
      = filterHopByHop r.headers ∧
    (Main.trigger env jsonLoads req ts
        (TransportResult.response r)).response.status = r.status_code ∧
    (Main.trigger env jsonLoads req ts
        (TransportResult.response r)).response.body = Body.bytes r.content ∧
    (Main.trigger env jsonLoads req ts
        (TransportResult.response r)).response.headers
      = filterHopByHop r.headers ∧
    (∀ p ∈ filterHopByHop r.headers, pyLower p.1 ∉ HOP_BY_HOP_HEADERS) ∧
    (∀ p ∈ r.headers, pyLower p.1 ∉ HOP_BY_HOP_HEADERS →
      p ∈ filterHopByHop r.headers) := by
  have hmain := main_trigger_response_eq env jsonLoads req ts url extra r hurl
    hne hload
  by_cases h : 400 ≤ r.status_code
  · rw [run_trigger_upstream_ge_eq env jsonLoads req ts url extra r hurl hne
      hload h, hmain]
    exact ⟨rfl, rfl, rfl, rfl, rfl, rfl, filterHopByHop_no_hop r.headers,
      filterHopByHop_keeps r.headers⟩
  · rw [run_trigger_upstream_lt_eq env jsonLoads req ts url extra r hurl hne
      hload (by omega), hmain]
    exact ⟨rfl, rfl, rfl, rfl, rfl, rfl, filterHopByHop_no_hop r.headers,
      filterHopByHop_keeps r.headers⟩

/-- C3 witness: a concrete 200 response with `Transfer-Encoding` and
`Content-Length` headers, which are stripped while `Content-Type`
survives and the body passes through. -/
theorem c3_witness :
    (Run.trigger env1 jsonLoads0 req1 "t0"
        (TransportResult.response r200)).response.headers
      = [("Content-Type", "text/plain")] ∧
    (Main.trigger env1 jsonLoads0 req1 "t0"
        (TransportResult.response r200)).response.body
      = Body.bytes [104, 105] ∧
    (Run.trigger env1 jsonLoads0 req1 "t0"
        (TransportResult.response r200)).response.status = 200 := by
  have h := c3_response_passthrough env1 jsonLoads0 req1 "t0"
    "http://upstream.example" [] r200 rfl (by decide) rfl
  refine ⟨?_, ?_, h.1⟩
  · rw [h.2.2.1]
    decide
  · rw [h.2.2.2.2.1]
    rfl

/-- C4: a transport-level failure of the outbound GET yields, in both
handlers, a 502 response with body "Upstream request failed", exactly one
error log record with `target_url` populated, the branch the spec calls
`UpstreamUnreachable`, and a single outbound attempt (no retry). -/
theorem c4_transport_failure (env : Env)
    (jsonLoads : String → Option Json) (req : InboundRequest) (ts url : String)
    (extra : List (String × String)) (errType errMsg : String)
    (hurl : env.sit3_url = some url) (hne : url ≠ "")
    (hload : load_optional_headers jsonLoads env.sit3_headers_json =
      Except.ok extra) :
    (Run.trigger env jsonLoads req ts
        (TransportResult.failure errType errMsg)).response.status = 502 ∧
    (Run.trigger env jsonLoads req ts
        (TransportResult.failure errType errMsg)).response.body
      = Body.jsonDetail "Upstream request failed" ∧
    (Run.trigger env jsonLoads req ts
        (TransportResult.failure errType errMsg)).branch
      = Branch.transportFailure ∧
    (∃ rec, (Run.trigger env jsonLoads req ts
        (TransportResult.failure errType errMsg)).logs = [rec] ∧
      rec.event = "trigger_error" ∧ rec.level = LogLevel.error ∧
      rec.target_url = some url ∧ rec.status_code = some 502) ∧
    (Run.trigger env jsonLoads req ts
        (TransportResult.failure errType errMsg)).outboundCalls.length = 1 ∧
    (Main.trigger env jsonLoads req ts
        (TransportResult.failure errType errMsg)).response.status = 502 ∧
    (Main.trigger env jsonLoads req ts
        (TransportResult.failure errType errMsg)).response.body
      = Body.jsonDetail "Upstream request failed" ∧
    (Main.trigger env jsonLoads req ts
        (TransportResult.failure errType errMsg)).branch
      = Branch.transportFailure ∧
    (∃ rec, (Main.trigger env jsonLoads req ts
        (TransportResult.failure errType errMsg)).logs = [rec] ∧
      rec.event = "trigger_error" ∧ rec.level = LogLevel.error ∧
      rec.target_url = some url ∧ rec.status_code = some 502) ∧
    (Main.trigger env jsonLoads req ts
        (TransportResult.failure errType errMsg)).outboundCalls.length = 1 := by
  rw [run_trigger_failure_eq env jsonLoads req ts url extra errType errMsg hurl
    hne hload,
    main_trigger_failure_eq env jsonLoads req ts url extra errType errMsg hurl
    hne hload]
  exact ⟨rfl, rfl, rfl, ⟨_, rfl, rfl, rfl, rfl, rfl⟩, rfl,
    rfl, rfl, rfl, ⟨_, rfl, rfl, rfl, rfl, rfl⟩, rfl⟩

/-- C4 witness: a concrete connection failure. -/
theorem c4_witness :
    (Run.trigger env1 jsonLoads0 req1 "t0"
        (TransportResult.failure "ConnectError"
          "connection refused")).response.status = 502 ∧
    (Main.trigger env1 jsonLoads0 req1 "t0"
        (TransportResult.failure "ConnectError"
          "connection refused")).response.body
      = Body.jsonDetail "Upstream request failed" := by
  have h := c4_transport_failure env1 jsonLoads0 req1 "t0"
    "http://upstream.example" [] "ConnectError" "connection refused" rfl
    (by decide) rfl
  exact ⟨h.1, h.2.2.2.2.2.2.1⟩

/-- C5 counterexample: with the target URL unset, the handler's 500
response body is "SIT3_URL is not set", not the claim's literal message
"target URL is not set". -/
theorem c5_counterexample :
    (Run.trigger envNoUrl jsonLoads0 req1 "t0"
        (TransportResult.failure "ConnectError" "x")).response.body
      = Body.jsonDetail "SIT3_URL is not set" ∧
    Body.jsonDetail "SIT3_URL is not set"
      ≠ Body.jsonDetail "target URL is not set" :=
  ⟨rfl, by decide⟩

/-- C5 amended: when the configured target URL is missing or empty, both
handlers return a 500 response whose body carries the message
"SIT3_URL is not set" (the branch the spec calls `ConfigError`), emit
exactly one error log record whose error_message is that message (with
error_type the raising exception class, `RuntimeError` resp.
`HTTPException`), and issue no outbound call. -/
theorem c5_missing_url (env : Env) (jsonLoads : String → Option Json)
    (req : InboundRequest) (ts : String) (tr : TransportResult)
    (h : env.sit3_url = none ∨ env.sit3_url = some "") :
    (Run.trigger env jsonLoads req ts tr).response.status = 500 ∧
    (Run.trigger env jsonLoads req ts tr).response.body
      = Body.jsonDetail "SIT3_URL is not set" ∧
    (Run.trigger env jsonLoads req ts tr).branch = Branch.missingUrl ∧
    (Run.trigger env jsonLoads req ts tr).outboundCalls = [] ∧
    (∃ rec, (Run.trigger env jsonLoads req ts tr).logs = [rec] ∧
      rec.event = "trigger_error" ∧ rec.level = LogLevel.error ∧
      rec.status_code = some 500 ∧ rec.error_type = some "RuntimeError" ∧
      rec.error_message = some "SIT3_URL is not set") ∧
    (Main.trigger env jsonLoads req ts tr).response.status = 500 ∧
    (Main.trigger env jsonLoads req ts tr).response.body
      = Body.jsonDetail "SIT3_URL is not set" ∧
    (Main.trigger env jsonLoads req ts tr).branch = Branch.missingUrl ∧
    (Main.trigger env jsonLoads req ts tr).outboundCalls = [] ∧
    (∃ rec, (Main.trigger env jsonLoads req ts tr).logs = [rec] ∧
      rec.event = "trigger_error" ∧ rec.level = LogLevel.error ∧
      rec.status_code = some 500 ∧ rec.error_type = some "HTTPException" ∧
      rec.error_message = some "SIT3_URL is not set") := by
  rw [run_trigger_missing_eq env jsonLoads req ts tr h,
    main_trigger_missing_eq env jsonLoads req ts tr h]
  exact ⟨rfl, rfl, rfl, rfl, ⟨_, rfl, rfl, rfl, rfl, rfl, rfl⟩,
    rfl, rfl, rfl, rfl, ⟨_, rfl, rfl, rfl, rfl, rfl, rfl⟩⟩

/-- C5 witness for the amended claim: the concrete unset-URL environment. -/
theorem c5_witness :
    (Run.trigger envNoUrl jsonLoads0 req1 "t0"
        (TransportResult.failure "ConnectError" "x")).response.status = 500 ∧
    (Main.trigger envNoUrl jsonLoads0 req1 "t0"
        (TransportResult.failure "ConnectError" "x")).response.body
      = Body.jsonDetail "SIT3_URL is not set" ∧
    (Run.trigger envNoUrl jsonLoads0 req1 "t0"
        (TransportResult.failure "ConnectError" "x")).outboundCalls = [] := by
  have h := c5_missing_url envNoUrl jsonLoads0 req1 "t0"
    (TransportResult.failure "ConnectError" "x") (Or.inl rfl)
  exact ⟨h.1, h.2.2.2.2.2.2.1, h.2.2.2.1⟩

theorem run_outboundCalls_query_only (env : Env)
    (jsonLoads : String → Option Json) (ts : String) (tr : TransportResult)
    (reqA reqB : InboundRequest)
    (hq : reqA.query_params = reqB.query_params) :
    (Run.trigger env jsonLoads reqA ts tr).outboundCalls =
      (Run.trigger env jsonLoads reqB ts tr).outboundCalls := by
  cases henv : env.sit3_url with
  | none => simp [Run.trigger, henv, Run.missing_url_result]
  | some url =>
    by_cases hu : url = ""
    · simp [Run.trigger, henv, hu, Run.missing_url_result]
    · cases hload : load_optional_headers jsonLoads env.sit3_headers_json with
      | error msg => simp [Run.trigger, henv, hu, hload]
      | ok extra =>
        cases tr with
        | failure ty msg => simp [Run.trigger, henv, hu, hload, hq]
        | response r =>
          by_cases h4 : 400 ≤ r.status_code <;>
            simp [Run.trigger, henv, hu, hload, hq, h4]

theorem main_outboundCalls_query_only (env : Env)
    (jsonLoads : String → Option Json) (ts : String) (tr : TransportResult)
    (reqA reqB : InboundRequest)
    (hq : reqA.query_params = reqB.query_params) :
    (Main.trigger env jsonLoads reqA ts tr).outboundCalls =
      (Main.trigger env jsonLoads reqB ts tr).outboundCalls := by
  cases henv : env.sit3_url with
  | none => simp [Main.trigger, henv, Main.missing_url_result]
  | some url =>
    by_cases hu : url = ""
    · simp [Main.trigger, henv, hu, Main.missing_url_result]
    · cases hload : load_optional_headers jsonLoads env.sit3_headers_json with
      | error msg => simp [Main.trigger, henv, hu, hload]
      | ok extra =>
        cases tr with
        | failure ty msg => simp [Main.trigger, henv, hu, hload, hq]
        | response r => simp [Main.trigger, henv, hu, hload, hq]

/-- C8: the outbound GET carries the inbound request's query parameters
unchanged and only the configured extra headers; two inbound requests
differing only in their inbound header sets produce identical outbound
requests (inbound headers are never forwarded upstream). -/
theorem c8_outbound_request_shape (env : Env)
    (jsonLoads : String → Option Json) (ts : String) (tr : TransportResult) :
    (∀ reqA reqB : InboundRequest, reqA.query_params = reqB.query_params →
      (Run.trigger env jsonLoads reqA ts tr).outboundCalls =
        (Run.trigger env jsonLoads reqB ts tr).outboundCalls ∧
      (Main.trigger env jsonLoads reqA ts tr).outboundCalls =
        (Main.trigger env jsonLoads reqB ts tr).outboundCalls) ∧
    (∀ (req : InboundRequest) (url : String)
        (extra : List (String × String)),
      env.sit3_url = some url → url ≠ "" →
      load_optional_headers jsonLoads env.sit3_headers_json = Except.ok extra →
      ∀ c ∈ (Run.trigger env jsonLoads req ts tr).outboundCalls ++
            (Main.trigger env jsonLoads req ts tr).outboundCalls,
        c.url = url ∧ c.params = req.query_params ∧
        c.headers = if extra.isEmpty then none else some extra) := by
  constructor
  · intro reqA reqB hq
    exact ⟨run_outboundCalls_query_only env jsonLoads ts tr reqA reqB hq,
      main_outboundCalls_query_only env jsonLoads ts tr reqA reqB hq⟩
  · intro req url extra hurl hne hload c hc
    cases tr with
    | failure ty msg =>
      rw [run_trigger_failure_eq env jsonLoads req ts url extra ty msg hurl hne
        hload,
        main_trigger_failure_eq env jsonLoads req ts url extra ty msg hurl hne
        hload] at hc
      simp only [List.cons_append, List.nil_append, List.mem_cons,
        List.not_mem_nil, or_false, or_self] at hc
      subst hc
      exact ⟨rfl, rfl, rfl⟩
    | response r =>
      rw [main_trigger_response_eq env jsonLoads req ts url extra r hurl hne
        hload] at hc
      by_cases h4 : 400 ≤ r.status_code
      · rw [run_trigger_upstream_ge_eq env jsonLoads req ts url extra r hurl
          hne hload h4] at hc
        simp only [List.cons_append, List.nil_append, List.mem_cons,
          List.not_mem_nil, or_false, or_self] at hc
        subst hc
        exact ⟨rfl, rfl, rfl⟩
      · rw [run_trigger_upstream_lt_eq env jsonLoads req ts url extra r hurl
          hne hload (by omega)] at hc
        simp only [List.cons_append, List.nil_append, List.mem_cons,
          List.not_mem_nil, or_false, or_self] at hc
        subst hc
        exact ⟨rfl, rfl, rfl⟩

/-- C8 witness: two concrete inbound requests with the same query string
but different inbound headers produce the same outbound call, whose
headers are empty (`none`) since no extra headers are configured. -/
theorem c8_witness :
    (Run.trigger env1 jsonLoads0 req1 "t0"
        (TransportResult.response r200)).outboundCalls =
      (Run.trigger env1 jsonLoads0 req2 "t0"
        (TransportResult.response r200)).outboundCalls ∧
    req1.headers ≠ req2.headers ∧
    (∀ c ∈ (Run.trigger env1 jsonLoads0 req1 "t0"
        (TransportResult.response r200)).outboundCalls ++
      (Main.trigger env1 jsonLoads0 req1 "t0"
        (TransportResult.response r200)).outboundCalls,
      c.params = [("a", "1")] ∧ c.headers = none) := by
  have h := c8_outbound_request_shape env1 jsonLoads0 "t0"
    (TransportResult.response r200)
  refine ⟨(h.1 req1 req2 rfl).1, by decide, ?_⟩
  intro c hc
  have hshape := h.2 req1 "http://upstream.example" [] rfl (by decide) rfl c hc
  exact ⟨hshape.2.1, by simpa using hshape.2.2⟩
